import Mathlib

/-!
Verification development for the `loan_calculator` repository.

Python floats are modelled as exact rationals (`ℚ`), Python ints as `ℤ`,
and fallible Python functions (those that `return None` or raise) as
`Option`/sum-like types.  Each definition is a direct translation of the
corresponding function in `src/ml_logic`.
-/

namespace LoanCalculator

/-! ## Amortization engine (`calcul_loan.py`, via `numpy_financial`)

`intCapLoan` computes the constant payment as `-npf.pmt(rate, nper, pv)`.
`numpy_financial.pmt` (with `fv = 0`, `when = 'end'`) is
`-(pv * temp) / fact` where `temp = (1+rate)^nper` and
`fact = nper` if `rate == 0` else `(temp - 1)/rate`; the code negates it. -/

/-- The positive monthly payment `-npf.pmt(rate, nper, pv)` computed by
`intCapLoan` / `intCapLoanStress` (`calcul_loan.py` line 39 / 86). -/
def loanPayment (rate : ℚ) (nper : ℕ) (pv : ℚ) : ℚ :=
  let temp := (1 + rate) ^ nper
  let fact := if rate = 0 then (nper : ℚ) else (temp - 1) / rate
  pv * temp / fact

/-- Remaining balance before period `k+1` as `numpy_financial` computes it:
`_rbl(rate, per, pmt, pv) = fv(rate, per-1, pmt, pv)`, sign-adjusted to the
positive-payment convention used by the repository (`npf.fv` with the signed
payment `-pmtPos` gives the negation of this value).  `npf.fv` special-cases
`rate == 0` to `-(pv + pmt*nper)`. -/
def remainingBalance (rate pv pmtPos : ℚ) (k : ℕ) : ℚ :=
  if rate = 0 then pv - pmtPos * k
  else pv * (1 + rate) ^ k - pmtPos * ((1 + rate) ^ k - 1) / rate

/-- The `Juros` column of the schedule: `-npf.ipmt(rate, per, nper, pv)`
(`calcul_loan.py` line 44), i.e. remaining balance before period `per`
times the monthly rate. -/
def juros (rate pv pmtPos : ℚ) (per : ℕ) : ℚ :=
  remainingBalance rate pv pmtPos (per - 1) * rate

/-- The `Capital` column: `-npf.ppmt(rate, per, nper, pv)`; `numpy_financial`
defines `ppmt = pmt - ipmt` (`calcul_loan.py` line 45). -/
def capital (rate pv pmtPos : ℚ) (per : ℕ) : ℚ :=
  pmtPos - juros rate pv pmtPos per

/-- The `Prestação mensal` column: the scalar payment broadcast to every
period (`calcul_loan.py` line 43, `df["Prestação mensal"] = loanActual`). -/
def prestacaoMensal (rate : ℚ) (nper : ℕ) (pv : ℚ) (_per : ℕ) : ℚ :=
  loanPayment rate nper pv

/-- Python `round(x, 5)` (used on the balance column, `calcul_loan.py`
line 48).  Exact-rational model; Python rounds ties to even on floats, which
agrees with this on every value appearing in the proved statements (the
argument there is exactly 0). -/
def round5 (x : ℚ) : ℚ := (round (x * 100000) : ℤ) / 100000

/-- The `Capital em dívida após prestação` column after period `k`:
`round(loan_amount - df["Capital"].cumsum(), 5)` (`calcul_loan.py` line 48). -/
def capitalEmDivida (rate pv pmtPos : ℚ) (k : ℕ) : ℚ :=
  round5 (pv - ∑ j in Finset.range k, capital rate pv pmtPos (j + 1))

/-! ## Affordability core (`loan_analysis_txEsforco.py`, `loan_analysis`)

Lines 187-196: after validating `monthly_income > 0`, the effort rate is
`(monthly_payment + monthly_charges) / monthly_income` and the approval
flag is `tx_esforco <= tx_limit`. -/

/-- Outcome of the effort-rate computation in `loan_analysis`. -/
structure AnalysisOutcome where
  txEsforco : ℚ
  approved : Bool
deriving DecidableEq

/-- The income-validation / effort-ratio / approval core of `loan_analysis`
(`loan_analysis_txEsforco.py` lines 187-196): `none` models the
`LoanAnalysisError` raised when `monthly_income <= 0`. -/
def loanAnalysisCore (monthlyPayment monthlyCharges monthlyIncome txLimit : ℚ) :
    Option AnalysisOutcome :=
  if monthlyIncome ≤ 0 then none
  else
    let txEsforco := (monthlyPayment + monthlyCharges) / monthlyIncome
    some ⟨txEsforco, decide (txEsforco ≤ txLimit)⟩

/-! ## Loan amount and age validation (`user_input.py`) -/

/-- A Python number passed as the loan amount; `isinstance(x, int)`
distinguishes the two constructors. -/
inductive PyNumber
  | intVal (n : ℤ)
  | floatVal (q : ℚ)
deriving DecidableEq

/-- `get_user_input` (`user_input.py` lines 11-19): accepts the amount only
when it is a Python `int` strictly greater than zero, otherwise returns
`None`. -/
def get_user_input : PyNumber → Option ℤ
  | .intVal n => if 0 < n then some n else none
  | .floatVal _ => none

/-- A calendar date as produced by `datetime.strptime(s, fmt).date()`. -/
structure Date where
  day : ℕ
  month : ℕ
  year : ℕ
deriving DecidableEq

/-- The Python tuple comparison
`(today.month, today.day) < (birthdate.month, birthdate.day)`
(lexicographic). -/
def monthDayLt (a b : ℕ × ℕ) : Bool :=
  decide (a.1 < b.1) || (a.1 == b.1 && decide (a.2 < b.2))

/-- `calculate_individual_age` (`user_input.py` lines 34-37): whole-year age
as of `today`, one year less if the birthday has not yet been reached this
year. -/
def individualAge (today birth : Date) : ℤ :=
  (today.year : ℤ) - (birth.year : ℤ) -
    (if monthDayLt (today.month, today.day) (birth.month, birth.day) then 1 else 0)

/-- Marital status tag consumed by `calculate_age`
("casado" = married, "solteiro" = single). -/
inductive MaritalStatus
  | casado
  | solteiro
deriving DecidableEq

/-- The birthdate argument of `calculate_age`: either a single date string or
a tuple/list of date strings.  A `none` entry models a string that
`datetime.strptime` fails to parse against the day/month/year format
(`strptime` is library behaviour, modelled by its parsed outcome). -/
inductive BirthInput
  | single (d : Option Date)
  | multiple (ds : List (Option Date))

/-- The parsing part of `calculate_age` (`user_input.py` lines 40-58): for
"casado" the input must be a tuple of exactly two date strings and both must
parse, yielding the maximum of the two ages; for "solteiro" a single
parseable date string (handing `strptime` a tuple raises, which the
surrounding `except` turns into `None`). -/
def parsedMaxAge (today : Date) (input : BirthInput) (status : MaritalStatus) : Option ℤ :=
  match status, input with
  | .casado, .multiple [some a, some b] =>
      some (max (individualAge today a) (individualAge today b))
  | .casado, _ => none
  | .solteiro, .single (some d) => some (individualAge today d)
  | .solteiro, _ => none

/-- The banded maximum-term policy of `calculate_age` (`user_input.py`
lines 65-72). -/
def maxYearsBand (age : ℤ) : ℤ :=
  if age ≤ 30 then 40
  else if age ≤ 35 then 37
  else if 35 < age ∧ age < 40 then 35
  else 75 - age

/-- `calculate_age` (`user_input.py` lines 23-77): maximum loan term in
months (`max_years * 12`), or `None` when the input is rejected, the maximum
age exceeds 75, or the banded term is below 5 years. -/
def calculate_age (today : Date) (input : BirthInput) (status : MaritalStatus) : Option ℤ :=
  match parsedMaxAge today input status with
  | none => none
  | some age =>
      if 75 < age then none
      else if maxYearsBand age < 5 then none
      else some (maxYearsBand age * 12)

/-- The claim's banding, with explicit age ranges:
age ≤ 30 → 40y; 31-35 → 37y; 36-39 → 35y; ≥ 40 → 75 - age. -/
def bandSpec (age : ℤ) : ℤ :=
  if age ≤ 30 then 40
  else if age ≤ 35 then 37
  else if age ≤ 39 then 35
  else 75 - age

/-- The claim's input-level rejection conditions for `calculate_age`:
married without exactly two birthdates supplied, or some supplied birthdate
failing to parse (for "solteiro" this includes being handed a tuple, which
`strptime` rejects). -/
def inputRejected (input : BirthInput) (status : MaritalStatus) : Bool :=
  match status, input with
  | .casado, .multiple ds => ds.length != 2 || ds.any fun d => d.isNone
  | .casado, .single _ => true
  | .solteiro, .single d => d.isNone
  | .solteiro, .multiple _ => true

/-! ## Rate configuration and regime selection
(`interest_rate.py`, `calcul_loan.py`, `loan_analysis_txEsforco.py`) -/

/-- Read-only process configuration: `TXFIXA` (the code applies a default of
0 when unset), `TXSTRESS` kept as an `Option` so that set/unset is visible
(the code reads `float(os.getenv("TXSTRESS", 0))`), the scraped Euribor
rates, and the configured spread values `SPREAD1..3`. -/
structure RateConfig where
  txfixa : ℚ
  txstress : Option ℚ
  euriborRates : List ℚ
  spreads : List ℚ

/-- `TXSTRESS = float(os.getenv("TXSTRESS", 0))` (`calcul_loan.py` line 60):
the stress add-on, zero when the variable is unset. -/
def stressAddon (txstress : Option ℚ) : ℚ := txstress.getD 0

/-- `tx_spread` (`interest_rate.py` lines 13-36): `rate + spread` when `rate`
is one of the scraped Euribor rates or the fixed rate and `spread` is a
configured spread; otherwise the code returns an error string instead of a
number, modelled as `none`. -/
def tx_spread (cfg : RateConfig) (rate spread : ℚ) : Option ℚ :=
  if (rate ∈ cfg.euriborRates ∨ rate = cfg.txfixa) ∧ spread ∈ cfg.spreads then
    some (rate + spread)
  else none

/-- Result of `intCapLoan` / `intCapLoanStress`: `noResult` is the explicit
`(None, None)` return, `rateError` the exception raised when `tx_spread`
produced its error string instead of a number. -/
inductive LoanOutcome
  | noResult
  | rateError
  | ok (payment : ℚ) (termMonths : ℕ)
deriving DecidableEq

/-- `intCapLoan` (`calcul_loan.py` lines 15-50), nominal regime.  The
expression `tx_spread(rate, spread)` is computed first but only *used*
(divided by 12) after the amount and term checks, so an invalid rate only
raises once those checks pass. -/
def intCapLoan (cfg : RateConfig) (rate spread : ℚ) (loan : PyNumber)
    (today : Date) (input : BirthInput) (status : MaritalStatus) : LoanOutcome :=
  match get_user_input loan with
  | none => .noResult
  | some amount =>
    match calculate_age today input status with
    | none => .noResult
    | some term =>
      match tx_spread cfg rate spread with
      | none => .rateError
      | some totalRate =>
          .ok (loanPayment (totalRate / 12) term.toNat (amount : ℚ)) term.toNat

/-- `intCapLoanStress` (`calcul_loan.py` lines 55-97), stressed regime.
`TXSTRESS + tx_spread(rate, spread)` is evaluated inside a `try` before the
amount and term checks, so an invalid rate raises immediately
(re-raised as `ValueError`). -/
def intCapLoanStress (cfg : RateConfig) (rate spread : ℚ) (loan : PyNumber)
    (today : Date) (input : BirthInput) (status : MaritalStatus) : LoanOutcome :=
  match tx_spread cfg rate spread with
  | none => .rateError
  | some t =>
    let totalRate := stressAddon cfg.txstress + t
    match get_user_input loan with
    | none => .noResult
    | some amount =>
      match calculate_age today input status with
      | none => .noResult
      | some term =>
          .ok (loanPayment (totalRate / 12) term.toNat (amount : ℚ)) term.toNat

/-- Rate regime selected by `get_monthly_loan_payment`. -/
inductive Regime
  | nominal
  | stressed
deriving DecidableEq

/-- The regime selection of `get_monthly_loan_payment`
(`loan_analysis_txEsforco.py` lines 50-56): nominal exactly when the supplied
rate equals `TXFIXA`. -/
def selectedRegime (cfg : RateConfig) (rate : ℚ) : Regime :=
  if rate = cfg.txfixa then .nominal else .stressed

/-- `get_monthly_loan_payment` (`loan_analysis_txEsforco.py` lines 46-59):
dispatches to the nominal or the stressed entry point. -/
def get_monthly_loan_payment (cfg : RateConfig) (rate spread : ℚ) (loan : PyNumber)
    (today : Date) (input : BirthInput) (status : MaritalStatus) : LoanOutcome :=
  match selectedRegime cfg rate with
  | .nominal => intCapLoan cfg rate spread loan today input status
  | .stressed => intCapLoanStress cfg rate spread loan today input status

/-- The annual rate whose twelfth becomes the monthly payment rate: the
`total_rate` local of `intCapLoan` (nominal) resp. `intCapLoanStress`
(stressed). -/
def annualRateUsed (cfg : RateConfig) (rate spread : ℚ) : Option ℚ :=
  match selectedRegime cfg rate with
  | .nominal => tx_spread cfg rate spread
  | .stressed => (tx_spread cfg rate spread).map (fun t => stressAddon cfg.txstress + t)

/-! ## Income-document year validation (`model_IRS.py`) -/

/-- The `DATE_LIMIT` configuration, a month-day pair; `limit_date` builds
`f"{current_year}-{cutoff_str}"`, so the parsed limit carries today's year. -/
structure MonthDay where
  month : ℕ
  day : ℕ
deriving DecidableEq

/-- `limit_date` (`model_IRS.py` lines 47-72).  The code compares the
datetimes `today < model_date` where `model_date` is midnight of the limit
date in the current year; at date granularity (equal years, `today`'s time
of day being ≥ midnight) this is the strict lexicographic comparison of
`(month, day)`.  Cutoff: `model_date.year - 2` before the limit date,
`model_date.year - 1` on or after it, with `model_date.year` equal to
today's year by construction. -/
def limit_date (today : Date) (lim : MonthDay) : ℤ :=
  if monthDayLt (today.month, today.day) (lim.month, lim.day) then
    (today.year : ℤ) - 2
  else
    (today.year : ℤ) - 1

/-- One entry of the `validation_anexo` dictionary built by
`validate_document_year`: the `valid` flag, the `document_year` field (the
code stores `""` when no year was extracted, modelled as `none`), and the
`reason` text. -/
structure AnexoValidation where
  valid : Bool
  document_year : Option ℕ
  reason : String
deriving DecidableEq

/-- Per-anexo body of `validate_document_year` (`model_IRS.py` lines
148-172): no extracted year → invalid with empty year; otherwise valid
exactly when `year >= cutoff_year`. -/
def validate_year (cutoffYear : ℤ) (anexoName : String) (year : Option ℕ) :
    AnexoValidation :=
  match year with
  | none => ⟨false, none, anexoName ++ ": Ano dos Rendimentos nao foi encontrado"⟩
  | some y =>
      if cutoffYear ≤ (y : ℤ) then
        ⟨true, some y, anexoName ++ ": Documento valido"⟩
      else
        ⟨false, some y, anexoName ++ ": Documento nao valido"⟩

/-- `validate_document_year` (`model_IRS.py` lines 134-172), mapped over the
years extracted per anexo. -/
def validate_document_year (cutoffYear : ℤ) (years : List (String × Option ℕ)) :
    List (String × AnexoValidation) :=
  years.map (fun p => (p.1, validate_year cutoffYear p.1 p.2))

/-- The `validation_summary` dictionary built by `is_document_acceptable`. -/
structure ValidationSummary where
  document_accepted : Bool
  failed_anexos : List String
  summary : String
deriving DecidableEq

/-- The rejection-summary prefix of `is_document_acceptable`
(`model_IRS.py` lines 210-213). -/
def rejectionPrefix : String :=
  "Documento nao aceite - Faca download de um documento mais recente para os seguintes Anexos: "

/-- `is_document_acceptable` (`model_IRS.py` lines 175-215): anexos whose
`document_year` is `None`/`""` are filtered out; the document is accepted
only if all remaining anexos are valid; the failed anexos are collected and,
on rejection, joined into the summary message. -/
def is_document_acceptable (cutoffYear : ℤ) (years : List (String × Option ℕ)) :
    ValidationSummary :=
  let validation := validate_document_year cutoffYear years
  let filtered := validation.filter (fun p => p.2.document_year.isSome)
  let allValid := filtered.all (fun p => p.2.valid)
  let failed := (filtered.filter (fun p => !p.2.valid)).map (fun p => p.1)
  ⟨allValid, failed,
    if allValid then "Valido"
    else rejectionPrefix ++ String.intercalate ", " failed⟩

/-! ## European-format numeric extraction

Both `model_IRS.py` (`extract_numbers_from_cells`) and `other_charge.py`
(`extract_numbers_from_lines`) compile the same pattern
`\d{1,3}(?:\.\d{3})*,\d{2}|\d+,\d{2}` and take the first (leftmost) match,
then `float(match.group().replace('.', '').replace(',', '.'))`.
The matcher below implements exactly this pattern with the `re` engine's
semantics: leftmost starting position, first alternative preferred, greedy
quantifiers with backtracking. -/

/-- Number of leading decimal digits. -/
def digitRun (s : List Char) : ℕ := (s.takeWhile Char.isDigit).length

/-- `,\d{2}` at the front, returning the three consumed characters. -/
def matchCommaTwo : List Char → Option (List Char)
  | ',' :: a :: b :: _ => if a.isDigit && b.isDigit then some [',', a, b] else none
  | _ => none

/-- Maximal number of consecutive `\.\d{3}` groups at the front (the greedy
first pass of the `(?:\.\d{3})*` star). -/
def countDotGroups : List Char → ℕ
  | '.' :: a :: b :: c :: rest =>
      if a.isDigit && b.isDigit && c.isDigit then countDotGroups rest + 1 else 0
  | _ => 0

/-- Backtracking pass of the star: try `k` groups (4 characters each) then
the `,\d{2}` tail, retrying with one group fewer on failure, from the
maximal count downwards. -/
def tryStarThenComma (digits rest : List Char) : ℕ → Option (List Char)
  | 0 => (matchCommaTwo rest).map (fun tail => digits ++ tail)
  | k + 1 =>
      match matchCommaTwo (rest.drop (4 * (k + 1))) with
      | some tail => some (digits ++ rest.take (4 * (k + 1)) ++ tail)
      | none => tryStarThenComma digits rest k

/-- First alternative `\d{1,3}(?:\.\d{3})*,\d{2}` anchored at the front,
with exactly `d` leading digits. -/
def matchAltA_at (s : List Char) (d : ℕ) : Option (List Char) :=
  let pre := s.take d
  if pre.length == d && pre.all Char.isDigit then
    tryStarThenComma pre (s.drop d) (countDotGroups (s.drop d))
  else none

/-- First alternative with the engine's greedy order on `\d{1,3}`:
three leading digits, then two, then one. -/
def matchAltA (s : List Char) : Option (List Char) :=
  (matchAltA_at s 3).orElse fun _ => (matchAltA_at s 2).orElse fun _ => matchAltA_at s 1

/-- Second alternative `\d+,\d{2}` anchored at the front: `\d+` greedy over
the digit run, backtracking downwards. -/
def tryPlusThenComma (s : List Char) : ℕ → Option (List Char)
  | 0 => none
  | len + 1 =>
      match matchCommaTwo (s.drop (len + 1)) with
      | some tail => some (s.take (len + 1) ++ tail)
      | none => tryPlusThenComma s len

/-- Second alternative anchored at the front. -/
def matchAltB (s : List Char) : Option (List Char) :=
  tryPlusThenComma s (digitRun s)

/-- The full pattern anchored at one position: alternative A preferred. -/
def numberMatchAt (s : List Char) : Option (List Char) :=
  (matchAltA s).orElse fun _ => matchAltB s

/-- `re.search`: the leftmost position with a match wins. -/
def numberSearch : List Char → Option (List Char)
  | [] => none
  | c :: rest => (numberMatchAt (c :: rest)).orElse fun _ => numberSearch rest

/-- The natural number denoted by a digit string. -/
def digitsToNat (ds : List Char) : ℕ :=
  ds.foldl (fun acc c => 10 * acc + (c.toNat - Char.toNat '0')) 0

/-- `float(match.group().replace('.', '').replace(',', '.'))`: drop the
thousands dots and split at the decimal comma; every match of the pattern
has exactly one comma followed by exactly two digits, so the float value is
the integer part plus the two-digit fraction over 100. -/
def matchedToRat (m : List Char) : ℚ :=
  let noDots := m.filter (fun c => c != '.')
  let intPart := noDots.takeWhile (fun c => c != ',')
  let fracPart := (noDots.dropWhile (fun c => c != ',')).drop 1
  (digitsToNat intPart : ℚ) + (digitsToNat fracPart : ℚ) / 100

/-- Python `str.strip()`: drop leading and trailing whitespace. -/
def stripChars (s : List Char) : List Char :=
  ((s.dropWhile Char.isWhitespace).reverse.dropWhile Char.isWhitespace).reverse

/-- `extract_numbers_from_cells` (`model_IRS.py` lines 386-401): skip falsy
cells (`None` or the empty string), strip and search each remaining cell,
keep the first match's value; a cell without a match contributes nothing
(the `ValueError` guard around `float` cannot fire on a pattern match,
modelled total). -/
def extract_numbers_from_cells (cells : List (Option String)) : List ℚ :=
  cells.foldr (fun cell acc =>
    match cell with
    | none => acc
    | some c =>
        if c = "" then acc
        else
          match numberSearch (stripChars c.data) with
          | some m => matchedToRat m :: acc
          | none => acc) []

/-- `extract_numbers_from_lines` (`other_charge.py` lines 57-67): first
match per line, lines without a match skipped. -/
def extract_numbers_from_lines (lines : List String) : List ℚ :=
  lines.foldr (fun line acc =>
    match numberSearch line.data with
    | some m => matchedToRat m :: acc
    | none => acc) []

/-! ## Credit-registry charge extraction (`other_charge.py`,
`loan_analysis_txEsforco.py` `get_monthly_bank_charge`) -/

/-- `normalize_text` (`other_charge.py` lines 29-34): NFKD-decompose, drop
non-ASCII bytes, lowercase.  Modelled for the Latin repertoire of the target
documents: accented vowels and cedilla fold to their lowercase base letter,
other non-ASCII characters are dropped, ASCII characters are lowercased. -/
def asciiFold (c : Char) : List Char :=
  if c ∈ ['á', 'à', 'â', 'ã', 'Á', 'À', 'Â', 'Ã'] then ['a']
  else if c ∈ ['é', 'ê', 'É', 'Ê'] then ['e']
  else if c ∈ ['í', 'Í'] then ['i']
  else if c ∈ ['ó', 'ô', 'õ', 'Ó', 'Ô', 'Õ'] then ['o']
  else if c ∈ ['ú', 'ü', 'Ú', 'Ü'] then ['u']
  else if c ∈ ['ç', 'Ç'] then ['c']
  else if c.toNat ≤ 127 then [c.toLower]
  else []

/-- `normalize_text` over a whole string. -/
def normalize_text (s : String) : String :=
  ⟨s.data.foldr (fun c acc => asciiFold c ++ acc) []⟩

/-- Whether `needle` is an initial segment of `hay`. -/
def leadingMatch : List Char → List Char → Bool
  | [], _ => true
  | _ :: _, [] => false
  | n :: ns, h :: hs => n == h && leadingMatch ns hs

/-- The Python substring test `needle in hay`. -/
def containsSub (needle : List Char) : List Char → Bool
  | [] => leadingMatch needle []
  | h :: hs => leadingMatch needle (h :: hs) || containsSub needle hs

/-- `extract_matching_lines` (`other_charge.py` lines 37-54): every line of
every page whose normalized text contains the normalized marker, in page
order. -/
def extract_matching_lines (pages : List (List String)) (searchValue : String) :
    List String :=
  pages.foldr (fun page acc =>
    page.filter (fun line =>
      containsSub (normalize_text searchValue).data (normalize_text line).data) ++ acc) []

/-- A charges PDF: readable pages (each page a list of text lines) or an
unreadable file on which `pdfplumber.open` raises. -/
inductive PdfFile
  | pages (pgs : List (List String))
  | unreadable

/-- Result of `process_pdf_CRC`.  The code only ever produces `values` (the
extracted numbers) or `noResult` (the `return None` of its bare `except`
handler); `fatalError` is the outcome the specification describes - a
fatal-error result carrying a human-readable message - and is never
produced by the code. -/
inductive CRCResult
  | values (xs : List ℚ)
  | noResult
  | fatalError (msg : String)
deriving DecidableEq

/-- `process_pdf_CRC` (`other_charge.py` lines 72-85): a missing
`BANK_CHARGE` configuration makes `get_env_var` raise `ValueError`, and an
unreadable file makes `pdfplumber.open` raise; in both cases the
`except Exception` handler returns `None` (printing only when `verbose`).
Otherwise the extracted numbers are returned. -/
def process_pdf_CRC (bankCharge : Option String) (pdf : PdfFile) : CRCResult :=
  match bankCharge with
  | none => .noResult
  | some marker =>
    match pdf with
    | .unreadable => .noResult
    | .pages pgs =>
        .values (extract_numbers_from_lines (extract_matching_lines pgs marker))

/-- A Python float result, which may be NaN. -/
inductive PyFloat
  | num (q : ℚ)
  | nanVal
deriving DecidableEq

/-- `get_monthly_bank_charge` (`loan_analysis_txEsforco.py` lines 62-80):
sums the extracted values.  When `process_pdf_CRC` returned `None`,
`pd.to_numeric(None, errors='coerce')` coerces it to a scalar NaN, the numpy
scalar's `.sum()` is NaN, and `float(NaN)` is returned - so the failure
becomes a NaN charge figure, not an error (and had the conversion raised
instead, the `except` handler would return `None`: in neither case is an
error signalled). -/
def get_monthly_bank_charge (bankCharge : Option String) (pdf : PdfFile) : PyFloat :=
  match process_pdf_CRC bankCharge pdf with
  | .values xs => .num xs.sum
  | .noResult => .nanVal
  | .fatalError _ => .nanVal

end LoanCalculator

namespace LoanCalculator

/-! ### Claim theorems (first group) -/

/-- **C1.** For every analysis in which a monthly payment `p`, monthly charges
`c`, and monthly income `m > 0` have been computed, the effort ratio equals
`(p + c) / m` and the approval flag is true if and only if the effort ratio is
at most the configured ceiling; in particular a ratio exactly equal to the
ceiling yields `approved = true` (the boundary is inclusive). -/
theorem effort_ratio_and_inclusive_approval (p c m limit : ℚ) (hm : 0 < m) :
    ∃ r : AnalysisOutcome, loanAnalysisCore p c m limit = some r ∧
      r.txEsforco = (p + c) / m ∧
      (r.approved = true ↔ r.txEsforco ≤ limit) ∧
      (r.txEsforco = limit → r.approved = true) := by
  refine ⟨⟨(p + c) / m, decide ((p + c) / m ≤ limit)⟩, ?_, rfl, ?_, ?_⟩
  · simp [loanAnalysisCore, not_le.mpr hm]
  · simp
  · intro h
    simp only [AnalysisOutcome.mk.injEq] at h ⊢
    exact decide_eq_true (le_of_eq h)

/-- Witness for C1 at concrete inputs: payment 500, charges 100, income 2000,
ceiling 0.3; the ratio is exactly the ceiling and approval is true. -/
theorem effort_ratio_and_inclusive_approval_witness :
    ∃ r : AnalysisOutcome, loanAnalysisCore 500 100 2000 (3/10) = some r ∧
      r.txEsforco = (500 + 100) / 2000 ∧
      (r.approved = true ↔ r.txEsforco ≤ 3/10) ∧
      (r.txEsforco = 3/10 → r.approved = true) :=
  effort_ratio_and_inclusive_approval 500 100 2000 (3/10) (by norm_num)

/-- **C2.** For every principal `P > 0`, term `n ≥ 1` months, and
monthly-equivalent rate `r` (annual rate divided by 12), the computed constant
monthly payment equals `r*P / (1 - (1+r)^(-n))` when `r > 0`, and equals `P/n`
exactly when `r = 0`. -/
theorem payment_formula (r P : ℚ) (n : ℕ) (hP : 0 < P) (hn : 1 ≤ n) :
    (0 < r → loanPayment r n P = r * P / (1 - (1 + r) ^ (-(n : ℤ)))) ∧
    loanPayment 0 n P = P / n := by
  constructor
  · intro hr
    have hr0 : r ≠ 0 := ne_of_gt hr
    have htemp : (1 : ℚ) < (1 + r) ^ n := one_lt_pow₀ (by linarith) (by omega)
    have htemp0 : ((1 + r) ^ n : ℚ) ≠ 0 := by positivity
    have htemp1 : ((1 + r) ^ n : ℚ) - 1 ≠ 0 := sub_ne_zero.mpr (ne_of_gt htemp)
    simp only [loanPayment, if_neg hr0, zpow_neg, zpow_natCast]
    field_simp
    ring
  · simp [loanPayment]

/-- Witness for C2: at monthly rate 1/100, term 12, principal 1000 the payment
matches the annuity formula, and at rate 0 it is exactly `1000/12`. -/
theorem payment_formula_witness :
    loanPayment (1/100) 12 1000 = (1/100) * 1000 / (1 - (1 + 1/100) ^ (-(12 : ℤ))) ∧
    loanPayment 0 12 1000 = 1000 / 12 :=
  ⟨(payment_formula (1/100) 1000 12 (by norm_num) (by norm_num)).1 (by norm_num),
   (payment_formula 0 1000 12 (by norm_num) (by norm_num)).2⟩

/-- Each principal portion of the schedule is `(payment - P*r) * (1+r)^k`
(`k` periods after the first), for a nonzero rate. -/
theorem capital_closed_form (r P : ℚ) (n : ℕ) (hr : r ≠ 0) (k : ℕ) :
    capital r P (loanPayment r n P) (k + 1)
      = (loanPayment r n P - P * r) * (1 + r) ^ k := by
  unfold capital juros remainingBalance
  rw [if_neg hr]
  simp only [Nat.add_sub_cancel]
  field_simp
  ring

/-- The principal portions of the annuity schedule sum to the principal
(positive rate case). -/
theorem sum_capital_pos (r P : ℚ) (n : ℕ) (hr : 0 < r) (hn : n ≠ 0) :
    ∑ k in Finset.range n, capital r P (loanPayment r n P) (k + 1) = P := by
  have hr0 : r ≠ 0 := ne_of_gt hr
  have hq1 : (1 + r : ℚ) ≠ 1 := by
    intro h
    exact hr0 (by linarith [h])
  have htemp : (1 : ℚ) < (1 + r) ^ n := one_lt_pow₀ (by linarith) hn
  have htemp1 : ((1 + r) ^ n : ℚ) - 1 ≠ 0 := sub_ne_zero.mpr (ne_of_gt htemp)
  calc ∑ k in Finset.range n, capital r P (loanPayment r n P) (k + 1)
      = ∑ k in Finset.range n, (loanPayment r n P - P * r) * (1 + r) ^ k :=
        Finset.sum_congr rfl fun k _ => capital_closed_form r P n hr0 k
    _ = (loanPayment r n P - P * r) * ∑ k in Finset.range n, (1 + r) ^ k := by
        rw [Finset.mul_sum]
    _ = (loanPayment r n P - P * r) * (((1 + r) ^ n - 1) / (1 + r - 1)) := by
        rw [geom_sum_eq hq1]
    _ = P := by
        simp only [loanPayment, if_neg hr0]
        field_simp
        ring

/-- The principal portions sum to the principal (zero rate case:
every installment is exactly `P/n`). -/
theorem sum_capital_zero (P : ℚ) (n : ℕ) (hn : n ≠ 0) :
    ∑ k in Finset.range n, capital 0 P (loanPayment 0 n P) (k + 1) = P := by
  have hcap : ∀ k : ℕ, capital 0 P (loanPayment 0 n P) (k + 1) = P / n := by
    intro k
    simp [capital, juros, remainingBalance, loanPayment]
  rw [Finset.sum_congr rfl fun k _ => hcap k, Finset.sum_const, Finset.card_range,
    nsmul_eq_mul]
  field_simp

/-- **C3.** For every amortization schedule produced for a principal `P > 0`,
rate `r ≥ 0`, and term `n ≥ 1`: the payment is the same in every period,
interest plus principal equals the payment in each period, the sum of the `n`
principal portions equals `P` within tolerance 0.01, and the remaining balance
after period `n` is 0 (so in particular within rounding of 0). -/
theorem schedule_invariants (r P : ℚ) (n : ℕ) (hP : 0 < P) (hr : 0 ≤ r) (hn : 1 ≤ n) :
    (∀ p q : ℕ, prestacaoMensal r n P p = prestacaoMensal r n P q) ∧
    (∀ per : ℕ, juros r P (loanPayment r n P) per + capital r P (loanPayment r n P) per
        = loanPayment r n P) ∧
    |(∑ k in Finset.range n, capital r P (loanPayment r n P) (k + 1)) - P| ≤ 1/100 ∧
    capitalEmDivida r P (loanPayment r n P) n = 0 := by
  have hsum : ∑ k in Finset.range n, capital r P (loanPayment r n P) (k + 1) = P := by
    rcases eq_or_lt_of_le hr with h0 | hpos
    · rw [← h0]
      exact sum_capital_zero P n (by omega)
    · exact sum_capital_pos r P n hpos (by omega)
  refine ⟨fun p q => rfl, fun per => by unfold capital; ring, ?_, ?_⟩
  · rw [hsum]
    simp
  · unfold capitalEmDivida
    rw [hsum]
    simp [round5]

/-- Witness for C3: a 240-month loan of 100000 at monthly rate 1/200 has an
exactly-zero balance after the last period, and its principal portions sum to
the principal within the 0.01 tolerance. -/
theorem schedule_invariants_witness :
    |(∑ k in Finset.range 240,
        capital (1/200) 100000 (loanPayment (1/200) 240 100000) (k + 1)) - 100000| ≤ 1/100 ∧
    capitalEmDivida (1/200) 100000 (loanPayment (1/200) 240 100000) 240 = 0 :=
  ⟨(schedule_invariants (1/200) 100000 240 (by norm_num) (by norm_num) (by norm_num)).2.2.1,
   (schedule_invariants (1/200) 100000 240 (by norm_num) (by norm_num) (by norm_num)).2.2.2⟩

/-- **C4.** The term policy computes each applicant's whole-year age as of
today, takes the maximum age, and returns the maximum term in months as
`band(age) * 12` with band: age ≤ 30 → 40y, 31-35 → 37y, 36-39 → 35y,
≥ 40 → 75 - age; and it returns no term (`None`) exactly when marital status
is married without exactly two birthdates, some birthdate fails to parse,
the maximum age exceeds 75, or the resulting term is below 5 years. -/
theorem term_policy_characterization (today : Date) (input : BirthInput)
    (status : MaritalStatus) :
    (∀ a : ℤ, maxYearsBand a = bandSpec a) ∧
    (parsedMaxAge today input status = none ↔ inputRejected input status = true) ∧
    (∀ a b : Date, parsedMaxAge today (.multiple [some a, some b]) .casado
        = some (max (individualAge today a) (individualAge today b))) ∧
    (calculate_age today input status = none ↔
      (inputRejected input status = true ∨
        ∃ age, parsedMaxAge today input status = some age ∧
          (75 < age ∨ maxYearsBand age < 5))) ∧
    (∀ t, calculate_age today input status = some t →
      ∃ age, parsedMaxAge today input status = some age ∧ age ≤ 75 ∧
        5 ≤ maxYearsBand age ∧ t = maxYearsBand age * 12) := by
  have hband : ∀ a : ℤ, maxYearsBand a = bandSpec a := by
    intro a
    simp only [maxYearsBand, bandSpec]
    split_ifs <;> omega
  have hrej : parsedMaxAge today input status = none ↔ inputRejected input status = true := by
    cases status with
    | casado =>
      cases input with
      | single d => simp [parsedMaxAge, inputRejected]
      | multiple ds =>
        rcases ds with _ | ⟨d1, _ | ⟨d2, _ | ⟨d3, rest⟩⟩⟩
        · simp [parsedMaxAge, inputRejected]
        · simp [parsedMaxAge, inputRejected]
        · cases d1 <;> cases d2 <;> simp [parsedMaxAge, inputRejected]
        · simp [parsedMaxAge, inputRejected]
    | solteiro =>
      cases input with
      | single d => cases d <;> simp [parsedMaxAge, inputRejected]
      | multiple ds => simp [parsedMaxAge, inputRejected]
  refine ⟨hband, hrej, fun a b => rfl, ?_, ?_⟩
  · rw [← hrej]
    cases hpm : parsedMaxAge today input status with
    | none => simp [calculate_age, hpm]
    | some age =>
      simp only [calculate_age, hpm]
      constructor
      · intro h
        split_ifs at h with h1 h2
        · exact Or.inr ⟨age, rfl, Or.inl h1⟩
        · exact Or.inr ⟨age, rfl, Or.inr h2⟩
      · rintro (h | ⟨a, ha, hcond⟩)
        · exact absurd h (by simp)
        · injection ha with ha
          subst ha
          split_ifs with h1 h2
          · rfl
          · rfl
          · omega
  · intro t h
    cases hpm : parsedMaxAge today input status with
    | none => rw [calculate_age, hpm] at h; exact absurd h (by simp)
    | some age =>
      simp only [calculate_age, hpm] at h
      split_ifs at h with h1 h2
      injection h with h
      exact ⟨age, rfl, by omega, by omega, h.symm⟩

/-- Witness for C4: a single applicant born 1/1/1990, analysed on 12/10/2026,
is 36 and gets the 35-year band, i.e. a 420-month term. -/
theorem term_policy_characterization_witness :
    ∃ age, parsedMaxAge ⟨12, 10, 2026⟩ (.single (some ⟨1, 1, 1990⟩)) .solteiro = some age ∧
      age ≤ 75 ∧ 5 ≤ maxYearsBand age ∧ (420 : ℤ) = maxYearsBand age * 12 :=
  (term_policy_characterization ⟨12, 10, 2026⟩ (.single (some ⟨1, 1, 1990⟩))
    .solteiro).2.2.2.2 420 (by decide)

/-- **C5.** The stressed regime is selected if and only if the supplied base
rate is not exactly the configured fixed rate; when the rate/spread pair is
valid, the annual rate used for the payment is base + spread + stress add-on
under the stressed regime (the add-on being zero when unset) and
base + spread under the nominal regime; and every successful payment of
`get_monthly_loan_payment` is the annuity payment at a twelfth of that
annual rate. -/
theorem stressed_regime_selection (cfg : RateConfig) (rate spread : ℚ) :
    (selectedRegime cfg rate = .stressed ↔ rate ≠ cfg.txfixa) ∧
    stressAddon none = 0 ∧
    ((rate ∈ cfg.euriborRates ∨ rate = cfg.txfixa) → spread ∈ cfg.spreads →
      annualRateUsed cfg rate spread =
        some (if rate = cfg.txfixa then rate + spread
              else rate + spread + stressAddon cfg.txstress)) ∧
    (∀ loan today input status p t,
      get_monthly_loan_payment cfg rate spread loan today input status = .ok p t →
        ∃ R amount, annualRateUsed cfg rate spread = some R ∧
          get_user_input loan = some amount ∧
          p = loanPayment (R / 12) t (amount : ℚ)) := by
  refine ⟨?_, rfl, ?_, ?_⟩
  · unfold selectedRegime
    split_ifs with h <;> simp [h]
  · intro h1 h2
    have hts : tx_spread cfg rate spread = some (rate + spread) := by
      simp [tx_spread, h1, h2]
    unfold annualRateUsed selectedRegime
    split_ifs with h
    · exact hts
    · simp only [hts]
      exact congrArg some (add_comm _ _)
  · intro loan today input status p t h
    unfold get_monthly_loan_payment at h
    unfold annualRateUsed
    cases hsel : selectedRegime cfg rate <;> rw [hsel] at h
    · unfold intCapLoan at h
      cases hui : get_user_input loan with
      | none => rw [hui] at h; exact absurd h (by simp)
      | some amount =>
        rw [hui] at h
        cases hage : calculate_age today input status with
        | none => rw [hage] at h; exact absurd h (by simp)
        | some term =>
          rw [hage] at h
          cases hts : tx_spread cfg rate spread with
          | none => rw [hts] at h; exact absurd h (by simp)
          | some totalRate =>
            rw [hts] at h
            simp only [LoanOutcome.ok.injEq] at h
            exact ⟨totalRate, amount, rfl, rfl, by rw [← h.1, ← h.2]⟩
    · unfold intCapLoanStress at h
      cases hts : tx_spread cfg rate spread with
      | none => rw [hts] at h; exact absurd h (by simp)
      | some t0 =>
        rw [hts] at h
        cases hui : get_user_input loan with
        | none => rw [hui] at h; exact absurd h (by simp)
        | some amount =>
          rw [hui] at h
          cases hage : calculate_age today input status with
          | none => rw [hage] at h; exact absurd h (by simp)
          | some term =>
            rw [hage] at h
            simp only [LoanOutcome.ok.injEq] at h
            exact ⟨stressAddon cfg.txstress + t0, amount, rfl, rfl,
              by rw [← h.1, ← h.2]⟩

/-- Witness for C5: with `TXFIXA = 3/100`, `TXSTRESS` set to `3/200`, Euribor
rate 2/100 and spread 1/100, a base rate of 2/100 (not the fixed rate) yields
the stressed annual rate `2/100 + 1/100 + 3/200`. -/
theorem stressed_regime_selection_witness :
    annualRateUsed ⟨3/100, some (3/200), [2/100], [1/100]⟩ (2/100) (1/100) =
      some (if (2/100 : ℚ) = (⟨3/100, some (3/200), [2/100], [1/100]⟩ : RateConfig).txfixa
            then 2/100 + 1/100
            else 2/100 + 1/100 + stressAddon (some (3/200))) :=
  (stressed_regime_selection ⟨3/100, some (3/200), [2/100], [1/100]⟩ (2/100) (1/100)).2.2.1
    (by norm_num) (by norm_num)

/-- **C10.** A loan amount that is a positive non-integer number (such as the
float 100000.5) is rejected by the amount validator, so both amortization
entry points produce the no-result outcome; only Python integers strictly
greater than zero are accepted as a principal. -/
theorem non_integer_amount_rejected (cfg : RateConfig) (rate spread : ℚ)
    (today : Date) (input : BirthInput) (status : MaritalStatus) (q : ℚ)
    (hq : 0 < q) (hnotint : q.den ≠ 1) :
    get_user_input (.floatVal q) = none ∧
    intCapLoan cfg rate spread (.floatVal q) today input status = .noResult ∧
    (∀ t, tx_spread cfg rate spread = some t →
      intCapLoanStress cfg rate spread (.floatVal q) today input status = .noResult) ∧
    (∀ v : PyNumber, ∀ n : ℤ, get_user_input v = some n ↔ v = .intVal n ∧ 0 < n) := by
  refine ⟨rfl, rfl, ?_, ?_⟩
  · intro t ht
    unfold intCapLoanStress
    rw [ht]
    rfl
  · intro v n
    cases v with
    | intVal m =>
      simp only [get_user_input]
      split_ifs with h
      · constructor
        · intro hmn
          obtain rfl : m = n := by injection hmn
          exact ⟨rfl, h⟩
        · rintro ⟨hv, -⟩
          injection hv with hv
          rw [hv]
      · constructor
        · intro hmn; exact absurd hmn (by simp)
        · rintro ⟨hv, hn⟩
          injection hv with hv
          exact absurd (hv ▸ hn) h
    | floatVal x => simp [get_user_input]

/-- Witness for C10 at the claimed input 100000.5 (= 200001/2): the validator
returns `None` and the nominal entry point yields no result. -/
theorem non_integer_amount_rejected_witness :
    get_user_input (.floatVal (200001/2)) = none ∧
    intCapLoan ⟨3/100, none, [], [1/100]⟩ (3/100) (1/100) (.floatVal (200001/2))
      ⟨12, 10, 2026⟩ (.single (some ⟨1, 1, 1990⟩)) .solteiro = .noResult :=
  ⟨(non_integer_amount_rejected ⟨3/100, none, [], [1/100]⟩ (3/100) (1/100)
      ⟨12, 10, 2026⟩ (.single (some ⟨1, 1, 1990⟩)) .solteiro (200001/2)
      (by norm_num) (by norm_num)).1,
   (non_integer_amount_rejected ⟨3/100, none, [], [1/100]⟩ (3/100) (1/100)
      ⟨12, 10, 2026⟩ (.single (some ⟨1, 1, 1990⟩)) .solteiro (200001/2)
      (by norm_num) (by norm_num)).2.1⟩

/-- **C6.** The cutoff year is current year − 2 if today precedes this
year's configured limit date and current year − 1 otherwise; and a section
from which a year was extracted is marked valid if and only if that year is
at least the cutoff year. -/
theorem year_cutoff_rule (today : Date) (lim : MonthDay) (anexoName : String) (y : ℕ) :
    (monthDayLt (today.month, today.day) (lim.month, lim.day) = true →
      limit_date today lim = (today.year : ℤ) - 2) ∧
    (monthDayLt (today.month, today.day) (lim.month, lim.day) = false →
      limit_date today lim = (today.year : ℤ) - 1) ∧
    ((validate_year (limit_date today lim) anexoName (some y)).valid = true ↔
      limit_date today lim ≤ (y : ℤ)) := by
  refine ⟨fun h => by simp [limit_date, h], fun h => by simp [limit_date, h], ?_⟩
  simp only [validate_year]
  split_ifs with h
  · simp [h]
  · simp [h]

/-- Witness for C6: on 1/5/2026 with limit date 30/6 the cutoff is 2024, and
a section year of 2024 is valid. -/
theorem year_cutoff_rule_witness :
    (validate_year (limit_date ⟨1, 5, 2026⟩ ⟨6, 30⟩) "Anexo_A" (some 2024)).valid = true ↔
      limit_date ⟨1, 5, 2026⟩ ⟨6, 30⟩ ≤ (2024 : ℤ) :=
  (year_cutoff_rule ⟨1, 5, 2026⟩ ⟨6, 30⟩ "Anexo_A" 2024).2.2

/-- Dropping an anexo with no extracted year does not change the
acceptability verdict at all. -/
theorem acceptable_cons_none (c : ℤ) (name : String) (tl : List (String × Option ℕ)) :
    is_document_acceptable c ((name, none) :: tl) = is_document_acceptable c tl := by
  unfold is_document_acceptable validate_document_year
  simp only [List.map_cons, validate_year, List.filter_cons, Option.isSome_none,
    Bool.false_and, Bool.and_false]
  simp

/-- Acceptance over a dated anexo: the verdict is the year test conjoined
with the verdict on the remaining anexos. -/
theorem accepted_cons_some (c : ℤ) (name : String) (y : ℕ)
    (tl : List (String × Option ℕ)) :
    (is_document_acceptable c ((name, some y) :: tl)).document_accepted =
      (decide (c ≤ (y : ℤ)) && (is_document_acceptable c tl).document_accepted) := by
  by_cases h : c ≤ (y : ℤ) <;>
    simp [is_document_acceptable, validate_document_year, validate_year, h]

/-- Failed anexos over a dated anexo. -/
theorem failed_cons_some (c : ℤ) (name : String) (y : ℕ)
    (tl : List (String × Option ℕ)) :
    (is_document_acceptable c ((name, some y) :: tl)).failed_anexos =
      (if c ≤ (y : ℤ) then [] else [name]) ++
        (is_document_acceptable c tl).failed_anexos := by
  by_cases h : c ≤ (y : ℤ) <;>
    simp [is_document_acceptable, validate_document_year, validate_year, h]

/-- The document is accepted iff every anexo that yielded a year passes the
cutoff test. -/
theorem accepted_iff_all_dated_valid (c : ℤ) (years : List (String × Option ℕ)) :
    (is_document_acceptable c years).document_accepted = true ↔
      ∀ p ∈ years, ∀ y : ℕ, p.2 = some y → c ≤ (y : ℤ) := by
  induction years with
  | nil => simp [is_document_acceptable, validate_document_year]
  | cons hd tl ih =>
    obtain ⟨name, y?⟩ := hd
    cases y? with
    | none => simp [acceptable_cons_none, ih]
    | some y => simp [accepted_cons_some, ih]

/-- The failed-anexos list is exactly the names of the anexos whose
extracted year is below the cutoff. -/
theorem failed_anexos_eq (c : ℤ) (years : List (String × Option ℕ)) :
    (is_document_acceptable c years).failed_anexos =
      (years.filter (fun p => match p.2 with
        | some y => decide ((y : ℤ) < c)
        | none => false)).map (fun p => p.1) := by
  induction years with
  | nil => simp [is_document_acceptable, validate_document_year]
  | cons hd tl ih =>
    obtain ⟨name, y?⟩ := hd
    cases y? with
    | none =>
      rw [acceptable_cons_none, ih]
      simp
    | some y =>
      rw [failed_cons_some, ih]
      by_cases h : c ≤ (y : ℤ)
      · simp [h, not_lt.mpr h]
      · simp [h, not_le.mp h]

/-- **C7.** Sections from which no year could be extracted are excluded
entirely from the accept/reject decision; the document is accepted if and
only if every section that did yield a year is valid; and on rejection the
failing sections are named in the rejection summary. -/
theorem acceptance_ignores_undated_sections (cutoffYear : ℤ)
    (years : List (String × Option ℕ)) (noYearName : String) :
    ((is_document_acceptable cutoffYear years).document_accepted = true ↔
      ∀ p ∈ years, ∀ y : ℕ, p.2 = some y → cutoffYear ≤ (y : ℤ)) ∧
    (is_document_acceptable cutoffYear ((noYearName, none) :: years) =
      is_document_acceptable cutoffYear years) ∧
    ((is_document_acceptable cutoffYear years).failed_anexos =
      (years.filter (fun p => match p.2 with
        | some y => decide ((y : ℤ) < cutoffYear)
        | none => false)).map (fun p => p.1)) ∧
    ((is_document_acceptable cutoffYear years).document_accepted = false →
      (is_document_acceptable cutoffYear years).summary =
        rejectionPrefix ++
          String.intercalate ", " (is_document_acceptable cutoffYear years).failed_anexos) := by
  refine ⟨accepted_iff_all_dated_valid cutoffYear years,
    acceptable_cons_none cutoffYear noYearName years,
    failed_anexos_eq cutoffYear years, ?_⟩
  intro h
  unfold is_document_acceptable at h ⊢
  simp only [] at h ⊢
  rw [if_neg (by rw [h]; exact Bool.false_ne_true)]

/-- The pattern cannot match at a position whose first character is not a
digit: both alternatives start with `\d`. -/
theorem numberMatchAt_eq_none (c : Char) (s : List Char) (hc : c.isDigit = false) :
    numberMatchAt (c :: s) = none := by
  have hA : ∀ d : ℕ, matchAltA_at (c :: s) (d + 1) = none := by
    intro d
    unfold matchAltA_at
    simp [List.take_succ_cons, hc]
  have hB : matchAltB (c :: s) = none := by
    unfold matchAltB digitRun
    rw [List.takeWhile_cons]
    simp [hc, tryPlusThenComma]
  have h3 : matchAltA_at (c :: s) 3 = none := hA 2
  have h2 : matchAltA_at (c :: s) 2 = none := hA 1
  have h1 : matchAltA_at (c :: s) 1 = none := hA 0
  unfold numberMatchAt matchAltA
  rw [h3, h2, h1, hB]
  rfl

/-- A string with no digit at all has no match of the numeric pattern. -/
theorem numberSearch_eq_none (s : List Char) (h : ∀ ch ∈ s, ch.isDigit = false) :
    numberSearch s = none := by
  induction s with
  | nil => rfl
  | cons c rest ih =>
    unfold numberSearch
    rw [numberMatchAt_eq_none c rest (h c (List.mem_cons_self c rest)),
      ih fun ch hch => h ch (List.mem_cons_of_mem c hch)]
    rfl

/-- **C8.** Numeric extraction takes the first match of the European-format
decimal pattern (dot as thousands separator, comma as decimal separator), so
"1.234,56" parses to 1234.56 and "56,00" parses to 56.0; a cell or line
containing no matching digits is skipped and contributes nothing, without
raising an error. -/
theorem european_number_extraction :
    (extract_numbers_from_cells [some "1.234,56", some "56,00"] = [123456/100, 56]) ∧
    (extract_numbers_from_lines ["Encargo mensal: 123,45"] = [12345/100]) ∧
    (∀ s : List Char, (∀ ch ∈ s, ch.isDigit = false) → numberSearch s = none) ∧
    (∀ cells : List (Option String),
      extract_numbers_from_cells (none :: cells) = extract_numbers_from_cells cells) ∧
    (∀ (cells : List (Option String)) (c : String),
      numberSearch (stripChars c.data) = none →
        extract_numbers_from_cells (some c :: cells) = extract_numbers_from_cells cells) ∧
    (∀ (lines : List String) (l : String), numberSearch l.data = none →
      extract_numbers_from_lines (l :: lines) = extract_numbers_from_lines lines) := by
  refine ⟨?_, ?_, numberSearch_eq_none, fun cells => rfl, ?_, ?_⟩
  · rw [show extract_numbers_from_cells [some "1.234,56", some "56,00"]
        = [((1234 : ℕ) : ℚ) + ((56 : ℕ) : ℚ)/100, ((56 : ℕ) : ℚ) + ((0 : ℕ) : ℚ)/100]
      from rfl]
    norm_num
  · rw [show extract_numbers_from_lines ["Encargo mensal: 123,45"]
        = [((123 : ℕ) : ℚ) + ((45 : ℕ) : ℚ)/100] from rfl]
    norm_num
  · intro cells c h
    unfold extract_numbers_from_cells
    simp only [List.foldr_cons]
    by_cases hc : c = ""
    · simp [hc]
    · simp [hc, h]
  · intro lines l h
    unfold extract_numbers_from_lines
    simp only [List.foldr_cons]
    simp [h]

/-- Counterexample to **C9** as stated: with the marker configuration
missing (and likewise with an unreadable PDF), `process_pdf_CRC` does not
produce a fatal-error result carrying a message - it returns the bare `None`
sentinel. -/
theorem charge_extraction_no_error_message :
    (¬ ∃ msg : String,
      process_pdf_CRC none (.pages [["Encargo mensal: 123,45"]]) = .fatalError msg) ∧
    (¬ ∃ msg : String,
      process_pdf_CRC (some "Encargo") .unreadable = .fatalError msg) := by
  constructor
  · rintro ⟨msg, h⟩
    simp [process_pdf_CRC] at h
  · rintro ⟨msg, h⟩
    simp [process_pdf_CRC] at h

/-- **C9 (amended).** When the marker configuration is missing or the PDF
file is unreadable, the failure is absorbed rather than surfaced:
`process_pdf_CRC` catches the exception and returns `None` (with no error
message), and `get_monthly_bank_charge` then converts that `None` into a NaN
charge figure instead of signalling an extraction error. -/
theorem charge_extraction_failure_absorbed (bankCharge : Option String)
    (pdf : PdfFile) (h : bankCharge = none ∨ pdf = .unreadable) :
    process_pdf_CRC bankCharge pdf = .noResult ∧
    get_monthly_bank_charge bankCharge pdf = .nanVal := by
  rcases h with rfl | rfl
  · exact ⟨rfl, rfl⟩
  · cases bankCharge with
    | none => exact ⟨rfl, rfl⟩
    | some m => exact ⟨rfl, rfl⟩

/-- Witness for the amended C9 at a concrete failing input. -/
theorem charge_extraction_failure_absorbed_witness :
    process_pdf_CRC none (.pages [["Linha qualquer"]]) = .noResult ∧
    get_monthly_bank_charge none (.pages [["Linha qualquer"]]) = .nanVal :=
  charge_extraction_failure_absorbed none (.pages [["Linha qualquer"]]) (Or.inl rfl)

/-- Witness for C8: a line with the marker but no digits contributes
nothing. -/
theorem european_number_extraction_witness :
    extract_numbers_from_lines ("Encargo sem valor" :: ["56,00"]) =
      extract_numbers_from_lines ["56,00"] :=
  european_number_extraction.2.2.2.2.2 ["56,00"] "Encargo sem valor" rfl

/-- Witness for C7: with cutoff 2024, an undated section is ignored, a 2024
section passes and a 2022 section fails, so the document is rejected and the
summary names exactly the failing section. -/
theorem acceptance_ignores_undated_sections_witness :
    (is_document_acceptable 2024 [("Anexo_A", some 2024), ("Anexo_B", some 2022)]).summary =
      rejectionPrefix ++ String.intercalate ", "
        (is_document_acceptable 2024
          [("Anexo_A", some 2024), ("Anexo_B", some 2022)]).failed_anexos :=
  (acceptance_ignores_undated_sections 2024
      [("Anexo_A", some 2024), ("Anexo_B", some 2022)] "Anexo_D").2.2.2 (by decide)

end LoanCalculator
